import Mathlib

/-!
Shallow embedding of the `import-sorter` repository (src/import_parser.py,
src/sorting_strategies.py, src/config.py, src/main.py).

Python strings are modelled as Lean `String` (a list of characters); the
Python string operations used by the code (`startswith`, `in`, `strip`) are
modelled as executable functions on the character list.  Python's stable
`sorted(key=...)` is modelled by `List.insertionSort` with the relation
"key x ≤ key y", which is a stable sort for a total preorder, as Python's
Timsort is.  Python exceptions are modelled with `Except`.
-/

/-- Models Python `s.startswith(p)`: `p` is a string prefix of `s`. -/
def py_startswith (s p : String) : Bool :=
  p.data.isPrefixOf s.data

/-- Models Python `"." in s` (substring test for the single character "."). -/
def py_contains_dot (s : String) : Bool :=
  s.data.any (· = '.')

/-- Python whitespace characters stripped by `str.strip()`. -/
def py_isspace (c : Char) : Bool :=
  c = ' ' || c = '\t' || c = '\n' || c = '\r' || c = '\x0b' || c = '\x0c'

/-- Models Python `s.strip()`: remove leading and trailing whitespace. -/
def py_strip (s : String) : String :=
  ⟨((s.data.dropWhile py_isspace).reverse.dropWhile py_isspace).reverse⟩

/-- The `ImportType` enum from import_parser.py (SYSTEM / THIRD_PARTY / LOCAL). -/
inductive ImportType where
  | SYSTEM
  | THIRD_PARTY
  | LOCAL
  deriving DecidableEq, Repr

/-- The `ImportStatement` dataclass from import_parser.py. -/
structure ImportStatement where
  original_line : String
  import_type : ImportType
  module : String
  specific_imports : List String := []
  is_from_import : Bool := false
  deriving DecidableEq, Repr

namespace Parser

/-- The hard-coded allow-list `standard_libs` in `Parser._classify_import_type`. -/
def standard_libs : List String :=
  ["os", "re", "sys", "math", "json", "datetime"]

/-- Embeds `Parser._classify_import_type` from import_parser.py:
`if any(module.startswith(lib) for lib in standard_libs): SYSTEM`;
`if "." not in module or module.startswith("."): LOCAL`; else THIRD_PARTY. -/
def classify_import_type (module : String) : ImportType :=
  if standard_libs.any (fun lib => py_startswith module lib) then
    ImportType.SYSTEM
  else if !(py_contains_dot module) || py_startswith module "." then
    ImportType.LOCAL
  else
    ImportType.THIRD_PARTY

/-- Embeds `Parser._create_import_statement` from import_parser.py. -/
def create_import_statement (module : String) : ImportStatement :=
  { original_line := "import " ++ module
    import_type := classify_import_type module
    module := module
    is_from_import := false }

/-- Embeds `Parser._create_from_import_statement` from import_parser.py. -/
def create_from_import_statement (module : String) (specific_import : String) :
    ImportStatement :=
  { original_line := "from " ++ module ++ " import " ++ specific_import
    import_type := classify_import_type module
    module := module
    specific_imports := [specific_import]
    is_from_import := true }

/-- An import node met by the `ast.walk` loop in `Parser.parse_imports`:
either an `ast.Import` with its list of dotted module names, or an
`ast.ImportFrom` with its (optional) module and list of imported names. -/
inductive AstImportNode where
  | importNode (names : List String)
  | importFromNode (module : Option String) (names : List String)
  deriving DecidableEq, Repr

/-- The record-building loop of `Parser.parse_imports` from import_parser.py,
over the sequence of import nodes found by `ast.walk`: one record per alias
of an `ast.Import` node, one record per alias of an `ast.ImportFrom` node,
with `module = node.module or ""` for the latter. -/
def parse_imports (nodes : List AstImportNode) : List ImportStatement :=
  nodes.flatMap fun node =>
    match node with
    | .importNode names => names.map create_import_statement
    | .importFromNode module names =>
        names.map (create_from_import_statement (module.getD ""))

end Parser

/-- The `SortingType` enum from config.py. -/
inductive SortingType where
  | FROM_FIRST
  | IMPORT_FIRST
  | ALPHABETICAL
  | STRUCTURAL
  deriving DecidableEq, Repr

/-- Models Python string comparison on character lists: lexicographic by
Unicode code point. -/
def chars_le : List Char → List Char → Bool
  | [], _ => true
  | _ :: _, [] => false
  | a :: as, b :: bs =>
    if a.toNat < b.toNat then true
    else if b.toNat < a.toNat then false
    else chars_le as bs

/-- Models Python `a <= b` on strings. -/
def py_str_le (a b : String) : Bool :=
  chars_le a.data b.data

/-- Models Python comparison of a `(int-like, str)` key tuple: lexicographic,
first component first.  (Python's `False < True` on the bool component of a
sort key is the integer order `0 < 1`, since `bool` is an `int` subtype.) -/
def pair_le (m n : Nat) (a b : String) : Bool :=
  if m < n then true
  else if n < m then false
  else py_str_le a b

namespace Sorter

/-- The ordering relation of Python's stable `sorted(imports, key=...)` for a
key tuple `(k₁ x, k₂ x)`: compare key tuples lexicographically. -/
def key_le (k₁ : ImportStatement → Nat) (k₂ : ImportStatement → String)
    (x y : ImportStatement) : Prop :=
  pair_le (k₁ x) (k₁ y) (k₂ x) (k₂ y) = true

instance (k₁ : ImportStatement → Nat) (k₂ : ImportStatement → String) :
    DecidableRel (key_le k₁ k₂) :=
  fun _ _ => inferInstanceAs (Decidable (_ = true))

/-- Models Python's `int(b)` coercion used when a bool appears in a sort key:
`False < True` is `0 < 1`. -/
def bool_nat (b : Bool) : Nat :=
  if b then 1 else 0

/-- Embeds `Sorter._from_first_sort`: stable sort by the key
`lambda x: (not x.is_from_import, x.original_line)`. -/
def from_first_sort (imports : List ImportStatement) : List ImportStatement :=
  imports.insertionSort
    (key_le (fun x => bool_nat (!x.is_from_import)) (fun x => x.original_line))

/-- Embeds `Sorter._import_first_sort`: stable sort by the key
`lambda x: (x.is_from_import, x.original_line)`. -/
def import_first_sort (imports : List ImportStatement) : List ImportStatement :=
  imports.insertionSort
    (key_le (fun x => bool_nat x.is_from_import) (fun x => x.original_line))

/-- The ordering relation of `Sorter._alphabetical_sort`: compare the
`original_line` key. -/
def line_le (x y : ImportStatement) : Prop :=
  py_str_le x.original_line y.original_line = true

instance : DecidableRel line_le :=
  fun _ _ => inferInstanceAs (Decidable (_ = true))

/-- Embeds `Sorter._alphabetical_sort`: stable sort by the key
`lambda x: x.original_line`. -/
def alphabetical_sort (imports : List ImportStatement) : List ImportStatement :=
  imports.insertionSort line_le

/-- The dict `type_order = {SYSTEM: 0, THIRD_PARTY: 1, LOCAL: 2}` of
`Sorter._structural_sort`. -/
def type_order : ImportType → Nat
  | ImportType.SYSTEM => 0
  | ImportType.THIRD_PARTY => 1
  | ImportType.LOCAL => 2

/-- Embeds `Sorter._structural_sort`: stable sort by the key
`lambda x: (type_order[x.import_type], x.original_line)`. -/
def structural_sort (imports : List ImportStatement) : List ImportStatement :=
  imports.insertionSort
    (key_le (fun x => type_order x.import_type) (fun x => x.original_line))

/-- Embeds `Sorter.sort_imports` from sorting_strategies.py: the `strategy_map`
dict lookup dispatching on the sorting type. -/
def sort_imports (imports : List ImportStatement) (sorting_type : SortingType) :
    List ImportStatement :=
  match sorting_type with
  | SortingType.FROM_FIRST => from_first_sort imports
  | SortingType.IMPORT_FIRST => import_first_sort imports
  | SortingType.ALPHABETICAL => alphabetical_sort imports
  | SortingType.STRUCTURAL => structural_sort imports

end Sorter

namespace ImportSorter

/-- The line test of `ImportSorter._process_single_file` in main.py:
`line.strip().startswith(("import ", "from "))`. -/
def looks_like_import (line : String) : Bool :=
  py_startswith (py_strip line) "import " || py_startswith (py_strip line) "from "

/-- The `try` body of `ImportSorter._process_single_file` from main.py, with
the file read and the `Parser.parse_imports` call (either of which may raise)
as `Except`-valued inputs: split the lines into import-prefixed and the rest,
sort the parsed records, and build the new file content as the rendered
sorted import lines followed by the non-import lines. -/
def process_single_file_body (read_result : Except String (List String))
    (parse_result : Except String (List ImportStatement))
    (sorting_type : SortingType) : Except String (List String) := do
  let content ← read_result
  let non_import_content := content.filter fun line => !(looks_like_import line)
  let parsed ← parse_result
  let sorted := Sorter.sort_imports parsed sorting_type
  let sorted_import_lines := sorted.map fun imp => imp.original_line ++ "\n"
  pure (sorted_import_lines ++ non_import_content)

/-- Outcome of one `_process_single_file` call: the error messages logged,
the exception propagated to the caller, and the content written back to the
file (`none` on dry-run or failure). -/
structure ProcessOutcome where
  logged_errors : List String
  raised : Option String
  written : Option (List String)
  deriving DecidableEq, Repr

/-- Embeds `ImportSorter._process_single_file` from main.py: run the body;
on success write the new content unless `dry_run`; on any exception log
"Error processing ..." and return normally — the blanket
`except Exception` swallows the exception, so `raised` is always `none`. -/
def process_single_file (read_result : Except String (List String))
    (parse_result : Except String (List ImportStatement))
    (sorting_type : SortingType) (dry_run : Bool) : ProcessOutcome :=
  match process_single_file_body read_result parse_result sorting_type with
  | Except.ok new_content =>
      { logged_errors := []
        raised := none
        written := if dry_run then none else some new_content }
  | Except.error e =>
      { logged_errors := ["Error processing: " ++ e]
        raised := none
        written := none }

/-- Embeds `ImportSorter.run` from main.py for a single-file invocation:
argument parsing and config validation may raise (first input); then
`_process_files` performs the single-file processing, whose outcome may carry
a propagating exception.  Any exception reaching `run`'s `try` is logged and
`sys.exit(1)` is called; otherwise the process ends with status 0. -/
def run_exit_code (config_result : Except String Unit)
    (outcome : ProcessOutcome) : Nat :=
  match config_result with
  | Except.error _ => 1
  | Except.ok _ =>
      match outcome.raised with
      | some _ => 1
      | none => 0

end ImportSorter

theorem chars_le_total : ∀ a b : List Char, chars_le a b = true ∨ chars_le b a = true
  | [], _ => Or.inl rfl
  | _ :: _, [] => Or.inr rfl
  | a :: as, b :: bs => by
    by_cases h1 : a.toNat < b.toNat
    · left
      simp [chars_le, h1]
    · by_cases h2 : b.toNat < a.toNat
      · right
        simp [chars_le, h2]
      · rcases chars_le_total as bs with h | h
        · left
          simp [chars_le, h1, h2, h]
        · right
          simp [chars_le, h1, h2, h]

theorem chars_le_trans :
    ∀ {a b c : List Char}, chars_le a b = true → chars_le b c = true →
      chars_le a c = true
  | [], _, _, _, _ => rfl
  | _ :: _, [], _, h1, _ => by simp [chars_le] at h1
  | _ :: _, _ :: _, [], _, h2 => by simp [chars_le] at h2
  | a :: as, b :: bs, c :: cs, h1, h2 => by
    simp only [chars_le] at h1 h2 ⊢
    by_cases hab : a.toNat < b.toNat
    · by_cases hbc : b.toNat < c.toNat
      · simp [show a.toNat < c.toNat from hab.trans hbc]
      · by_cases hcb : c.toNat < b.toNat
        · simp [hbc, hcb] at h2
        · simp [show a.toNat < c.toNat by omega]
    · by_cases hba : b.toNat < a.toNat
      · simp [hab, hba] at h1
      · simp only [hab, hba, if_neg, ite_false] at h1
        by_cases hbc : b.toNat < c.toNat
        · simp [show a.toNat < c.toNat by omega]
        · by_cases hcb : c.toNat < b.toNat
          · simp [hbc, hcb] at h2
          · simp only [hbc, hcb, if_neg, ite_false] at h2
            have hac : ¬ a.toNat < c.toNat := by omega
            have hca : ¬ c.toNat < a.toNat := by omega
            simp only [hac, hca, if_neg, ite_false]
            exact chars_le_trans h1 h2

theorem py_str_le_total (a b : String) :
    py_str_le a b = true ∨ py_str_le b a = true :=
  chars_le_total a.data b.data

theorem py_str_le_trans {a b c : String} (h1 : py_str_le a b = true)
    (h2 : py_str_le b c = true) : py_str_le a c = true :=
  chars_le_trans h1 h2

theorem pair_le_total (m n : Nat) (a b : String) :
    pair_le m n a b = true ∨ pair_le n m b a = true := by
  unfold pair_le
  rcases Nat.lt_trichotomy m n with h | h | h
  · left
    simp [h]
  · subst h
    simpa [Nat.lt_irrefl] using py_str_le_total a b
  · right
    simp [h]

theorem pair_le_trans {m n k : Nat} {a b c : String}
    (h1 : pair_le m n a b = true) (h2 : pair_le n k b c = true) :
    pair_le m k a c = true := by
  unfold pair_le at h1 h2 ⊢
  by_cases hmn : m < n
  · by_cases hnk : n < k
    · simp [show m < k from hmn.trans hnk]
    · by_cases hkn : k < n
      · simp [hnk, hkn] at h2
      · simp [show m < k by omega]
  · by_cases hnm : n < m
    · simp [hmn, hnm] at h1
    · simp only [hmn, hnm, if_neg, ite_false] at h1
      by_cases hnk : n < k
      · simp [show m < k by omega]
      · by_cases hkn : k < n
        · simp [hnk, hkn] at h2
        · simp only [hnk, hkn, if_neg, ite_false] at h2
          have hmk : ¬ m < k := by omega
          have hkm : ¬ k < m := by omega
          simp only [hmk, hkm, if_neg, ite_false]
          exact py_str_le_trans h1 h2

namespace Sorter

instance (k₁ : ImportStatement → Nat) (k₂ : ImportStatement → String) :
    IsTotal ImportStatement (key_le k₁ k₂) :=
  ⟨fun x y => pair_le_total (k₁ x) (k₁ y) (k₂ x) (k₂ y)⟩

instance (k₁ : ImportStatement → Nat) (k₂ : ImportStatement → String) :
    IsTrans ImportStatement (key_le k₁ k₂) :=
  ⟨fun _ _ _ h1 h2 => pair_le_trans h1 h2⟩

instance : IsTotal ImportStatement line_le :=
  ⟨fun x y => py_str_le_total x.original_line y.original_line⟩

instance : IsTrans ImportStatement line_le :=
  ⟨fun _ _ _ h1 h2 => py_str_le_trans h1 h2⟩

end Sorter

/-- C1 counterexample: the classifier uses a raw string-prefix test, so the
module path "osprey", whose first dotted segment "osprey" is not on the
allow-list, nevertheless classifies as the standard-library category
(`SYSTEM`, the spec's STANDARD), because "osprey" shares the prefix "os". -/
theorem c1_osprey_is_system :
    Parser.classify_import_type "osprey" = ImportType.SYSTEM := by decide

/-- C1 (amended): the classifier returns the standard-library category
(`SYSTEM`) if and only if an allow-listed name is a raw string prefix of the
module path — not a full dotted-segment match. -/
theorem classify_system_iff (module : String) :
    Parser.classify_import_type module = ImportType.SYSTEM ↔
      ∃ lib ∈ Parser.standard_libs, py_startswith module lib = true := by
  unfold Parser.classify_import_type
  by_cases h : (Parser.standard_libs.any fun lib => py_startswith module lib) = true
  · rw [if_pos h]
    rw [List.any_eq_true] at h
    simpa using h
  · rw [if_neg h]
    rw [List.any_eq_true] at h
    constructor
    · intro hc
      exfalso
      by_cases h2 : (!(py_contains_dot module) || py_startswith module ".") = true
      · rw [if_pos h2] at hc
        exact ImportType.noConfusion hc
      · rw [if_neg h2] at hc
        exact ImportType.noConfusion hc
    · intro hc
      exact absurd hc h

/-- C2: classification is total — for every module path string it returns
exactly one of the three categories — and the empty module path (a bare
relative import) classifies as LOCAL. -/
theorem classify_total_partition (module : String) :
    ((Parser.classify_import_type module = ImportType.SYSTEM ∧
        Parser.classify_import_type module ≠ ImportType.THIRD_PARTY ∧
        Parser.classify_import_type module ≠ ImportType.LOCAL) ∨
      (Parser.classify_import_type module ≠ ImportType.SYSTEM ∧
        Parser.classify_import_type module = ImportType.THIRD_PARTY ∧
        Parser.classify_import_type module ≠ ImportType.LOCAL) ∨
      (Parser.classify_import_type module ≠ ImportType.SYSTEM ∧
        Parser.classify_import_type module ≠ ImportType.THIRD_PARTY ∧
        Parser.classify_import_type module = ImportType.LOCAL)) ∧
    Parser.classify_import_type "" = ImportType.LOCAL := by
  refine ⟨?_, by decide⟩
  rcases h : Parser.classify_import_type module with _ | _ | _
  · exact Or.inl ⟨rfl, by simp, by simp⟩
  · exact Or.inr (Or.inl ⟨by simp, rfl, by simp⟩)
  · exact Or.inr (Or.inr ⟨by simp, by simp, rfl⟩)

/-- C3: ordering is idempotent — re-sorting an already-sorted sequence under
the same policy changes nothing, for each of the four policies. -/
theorem sort_imports_idempotent (records : List ImportStatement)
    (p : SortingType) :
    Sorter.sort_imports (Sorter.sort_imports records p) p =
      Sorter.sort_imports records p := by
  cases p <;>
    exact List.Sorted.insertionSort_eq (List.sorted_insertionSort _ _)

/-- C5: in the STRUCTURAL output, every adjacent pair is weakly ordered by
the category rank SYSTEM(=STANDARD) < THIRD_PARTY < LOCAL, and within an
equal category by `original_line` lexicographically. -/
theorem structural_sort_ordering (records : List ImportStatement) :
    List.Chain'
      (fun a b =>
        Sorter.type_order a.import_type ≤ Sorter.type_order b.import_type ∧
          (a.import_type = b.import_type →
            py_str_le a.original_line b.original_line = true))
      (Sorter.sort_imports records SortingType.STRUCTURAL) := by
  refine List.Chain'.imp ?_
    (List.Pairwise.chain'
      (List.sorted_insertionSort
        (Sorter.key_le (fun x => Sorter.type_order x.import_type)
          (fun x => x.original_line)) records))
  intro a b hab
  rw [Sorter.key_le] at hab
  unfold pair_le at hab
  by_cases h : Sorter.type_order a.import_type < Sorter.type_order b.import_type
  · refine ⟨Nat.le_of_lt h, fun he => ?_⟩
    rw [he] at h
    exact absurd h (Nat.lt_irrefl _)
  · by_cases h2 : Sorter.type_order b.import_type < Sorter.type_order a.import_type
    · simp [h, h2] at hab
    · have heq : Sorter.type_order a.import_type = Sorter.type_order b.import_type := by
        omega
      refine ⟨Nat.le_of_eq heq, fun _ => ?_⟩
      simpa [h, h2] using hab

theorem orderedInsert_congr {α : Type} {r s : α → α → Prop}
    [DecidableRel r] [DecidableRel s] (a : α) :
    ∀ l : List α, (∀ b ∈ l, r a b ↔ s a b) →
      l.orderedInsert r a = l.orderedInsert s a
  | [], _ => rfl
  | b :: l, h => by
    by_cases hr : r a b
    · rw [List.orderedInsert, List.orderedInsert, if_pos hr,
        if_pos ((h b (List.mem_cons_self b l)).mp hr)]
    · rw [List.orderedInsert, List.orderedInsert, if_neg hr,
        if_neg (fun hs => hr ((h b (List.mem_cons_self b l)).mpr hs)),
        orderedInsert_congr a l (fun c hc => h c (List.mem_cons_of_mem b hc))]

theorem orderedInsert_append_of_not_rel {α : Type} {r : α → α → Prop}
    [DecidableRel r] (a : α) :
    ∀ l₁ l₂ : List α, (∀ b ∈ l₁, ¬ r a b) →
      (l₁ ++ l₂).orderedInsert r a = l₁ ++ l₂.orderedInsert r a
  | [], _, _ => rfl
  | b :: l₁, l₂, h => by
    rw [List.cons_append, List.orderedInsert,
      if_neg (h b (List.mem_cons_self b l₁)),
      orderedInsert_append_of_not_rel a l₁ l₂
        (fun c hc => h c (List.mem_cons_of_mem b hc)),
      List.cons_append]

theorem orderedInsert_append_of_rel {α : Type} {r : α → α → Prop}
    [DecidableRel r] (a : α) :
    ∀ l₁ l₂ : List α, (∀ b ∈ l₂, r a b) →
      (l₁ ++ l₂).orderedInsert r a = l₁.orderedInsert r a ++ l₂
  | [], l₂, h => by
    cases l₂ with
    | nil => rfl
    | cons b l =>
      rw [List.nil_append]
      simp only [List.orderedInsert]
      rw [if_pos (h b (List.mem_cons_self b l))]
      rfl
  | b :: l₁, l₂, h => by
    by_cases hr : r a b
    · rw [List.cons_append, List.orderedInsert, if_pos hr, List.orderedInsert,
        if_pos hr]
      rfl
    · rw [List.cons_append, List.orderedInsert, if_neg hr, List.orderedInsert,
        if_neg hr, orderedInsert_append_of_rel a l₁ l₂ h, List.cons_append]

/-- A stable sort keyed primarily on a boolean group (false-group first) and
secondarily on `original_line` equals the `original_line`-sort of the
false-group followed by the `original_line`-sort of the true-group. -/
theorem grouped_sort_eq (p : ImportStatement → Bool) :
    ∀ l : List ImportStatement,
      l.insertionSort
          (Sorter.key_le (fun x => Sorter.bool_nat (p x))
            (fun x => x.original_line)) =
        (l.filter (fun x => !p x)).insertionSort Sorter.line_le ++
          (l.filter p).insertionSort Sorter.line_le
  | [] => rfl
  | a :: l => by
    rw [List.insertionSort, grouped_sort_eq p l]
    by_cases hp : p a = true
    · have h₁ : ∀ b ∈ (l.filter (fun x => !p x)).insertionSort Sorter.line_le,
          ¬ Sorter.key_le (fun x => Sorter.bool_nat (p x))
              (fun x => x.original_line) a b := by
        intro b hb hk
        have hbf : p b = false := by
          have := (List.mem_filter.mp ((List.mem_insertionSort _).mp hb)).2
          simpa using this
        rw [Sorter.key_le] at hk
        simp [Sorter.bool_nat, hp, hbf, pair_le] at hk
      have h₂ : ∀ b ∈ (l.filter p).insertionSort Sorter.line_le,
          Sorter.key_le (fun x => Sorter.bool_nat (p x))
              (fun x => x.original_line) a b ↔ Sorter.line_le a b := by
        intro b hb
        have hbt : p b = true :=
          (List.mem_filter.mp ((List.mem_insertionSort _).mp hb)).2
        rw [Sorter.key_le, Sorter.line_le]
        simp [Sorter.bool_nat, hp, hbt, pair_le]
      rw [orderedInsert_append_of_not_rel a _ _ h₁, orderedInsert_congr a _ h₂,
        List.filter_cons_of_neg (by simp [hp]),
        List.filter_cons_of_pos hp, List.insertionSort]
    · have hpf : p a = false := by
        simpa using hp
      have h₁ : ∀ b ∈ (l.filter p).insertionSort Sorter.line_le,
          Sorter.key_le (fun x => Sorter.bool_nat (p x))
            (fun x => x.original_line) a b := by
        intro b hb
        have hbt : p b = true :=
          (List.mem_filter.mp ((List.mem_insertionSort _).mp hb)).2
        rw [Sorter.key_le]
        simp [Sorter.bool_nat, hpf, hbt, pair_le]
      have h₂ : ∀ b ∈ (l.filter (fun x => !p x)).insertionSort Sorter.line_le,
          Sorter.key_le (fun x => Sorter.bool_nat (p x))
              (fun x => x.original_line) a b ↔ Sorter.line_le a b := by
        intro b hb
        have hbf : p b = false := by
          have := (List.mem_filter.mp ((List.mem_insertionSort _).mp hb)).2
          simpa using this
        rw [Sorter.key_le, Sorter.line_le]
        simp [Sorter.bool_nat, hpf, hbf, pair_le]
      rw [orderedInsert_append_of_rel a _ _ h₁, orderedInsert_congr a _ h₂,
        List.filter_cons_of_pos (by simp [hpf]),
        List.filter_cons_of_neg (by simp [hpf]), List.insertionSort]

/-- Lemma: `Sorter._from_first_sort` decomposes into the `original_line`-sorted
selective group followed by the `original_line`-sorted plain group. -/
theorem from_first_sort_eq (l : List ImportStatement) :
    Sorter.from_first_sort l =
      (l.filter fun x => x.is_from_import).insertionSort Sorter.line_le ++
        (l.filter fun x => !x.is_from_import).insertionSort Sorter.line_le := by
  have h := grouped_sort_eq (fun x => !x.is_from_import) l
  simp only [Bool.not_not] at h
  exact h

/-- Lemma: `Sorter._import_first_sort` decomposes into the `original_line`-sorted
plain group followed by the `original_line`-sorted selective group. -/
theorem import_first_sort_eq (l : List ImportStatement) :
    Sorter.import_first_sort l =
      (l.filter fun x => !x.is_from_import).insertionSort Sorter.line_le ++
        (l.filter fun x => x.is_from_import).insertionSort Sorter.line_le := by
  exact grouped_sort_eq (fun x => x.is_from_import) l

/-- C4: the FROM_FIRST output is exactly the IMPORT_FIRST output with the
selective-import group and the plain-import group swapped, each group
internally in the identical order in both outputs (the groups being the
`is_from_import`-filtered subsequences of the outputs). -/
theorem from_first_swaps_import_first (records : List ImportStatement) :
    Sorter.sort_imports records SortingType.FROM_FIRST =
        ((Sorter.sort_imports records SortingType.IMPORT_FIRST).filter
            fun x => x.is_from_import) ++
          ((Sorter.sort_imports records SortingType.IMPORT_FIRST).filter
            fun x => !x.is_from_import) ∧
      Sorter.sort_imports records SortingType.IMPORT_FIRST =
        ((Sorter.sort_imports records SortingType.IMPORT_FIRST).filter
            fun x => !x.is_from_import) ++
          ((Sorter.sort_imports records SortingType.IMPORT_FIRST).filter
            fun x => x.is_from_import) ∧
      ((Sorter.sort_imports records SortingType.FROM_FIRST).filter
          fun x => x.is_from_import) =
        ((Sorter.sort_imports records SortingType.IMPORT_FIRST).filter
          fun x => x.is_from_import) ∧
      ((Sorter.sort_imports records SortingType.FROM_FIRST).filter
          fun x => !x.is_from_import) =
        ((Sorter.sort_imports records SortingType.IMPORT_FIRST).filter
          fun x => !x.is_from_import) := by
  have hF := from_first_sort_eq records
  have hI := import_first_sort_eq records
  have hsel : ∀ b ∈ (records.filter fun x => x.is_from_import).insertionSort
      Sorter.line_le, b.is_from_import = true := fun b hb =>
    (List.mem_filter.mp ((List.mem_insertionSort _).mp hb)).2
  have hpl : ∀ b ∈ (records.filter fun x => !x.is_from_import).insertionSort
      Sorter.line_le, b.is_from_import = false := fun b hb => by
    simpa using (List.mem_filter.mp ((List.mem_insertionSort _).mp hb)).2
  have main : ∀ A B : List ImportStatement,
      (∀ b ∈ A, b.is_from_import = true) →
      (∀ b ∈ B, b.is_from_import = false) →
      ((B ++ A).filter fun x => x.is_from_import) = A ∧
        ((B ++ A).filter fun x => !x.is_from_import) = B := by
    intro A B hA hB
    constructor
    · rw [List.filter_append,
        List.filter_eq_nil_iff.mpr (fun a ha => by simp [hB a ha]),
        List.nil_append,
        List.filter_eq_self.mpr (fun a ha => by simp [hA a ha])]
    · rw [List.filter_append,
        List.filter_eq_self.mpr (fun a ha => by simp [hB a ha]),
        List.filter_eq_nil_iff.mpr (fun a ha => by simp [hA a ha]),
        List.append_nil]
  have mainF : ∀ A B : List ImportStatement,
      (∀ b ∈ A, b.is_from_import = true) →
      (∀ b ∈ B, b.is_from_import = false) →
      ((A ++ B).filter fun x => x.is_from_import) = A ∧
        ((A ++ B).filter fun x => !x.is_from_import) = B := by
    intro A B hA hB
    constructor
    · rw [List.filter_append,
        List.filter_eq_self.mpr (fun a ha => by simp [hA a ha]),
        List.filter_eq_nil_iff.mpr (fun a ha => by simp [hB a ha]),
        List.append_nil]
    · rw [List.filter_append,
        List.filter_eq_nil_iff.mpr (fun a ha => by simp [hA a ha]),
        List.nil_append,
        List.filter_eq_self.mpr (fun a ha => by simp [hB a ha])]
  obtain ⟨hI1, hI2⟩ := main _ _ hsel hpl
  obtain ⟨hF1, hF2⟩ := mainF _ _ hsel hpl
  refine ⟨?_, ?_, ?_, ?_⟩
  · simp only [Sorter.sort_imports]
    rw [hF, hI, hI1, hI2]
  · simp only [Sorter.sort_imports]
    rw [hI, hI1, hI2]
  · simp only [Sorter.sort_imports]
    rw [hF, hI, hI1, hF1]
  · simp only [Sorter.sort_imports]
    rw [hF, hI, hI2, hF2]

/-- C8 counterexample: on the records built from `import sys`,
`import requests`, `from .utils import helper`, the code does NOT produce the
order sys, requests, .utils with tags STANDARD, THIRD_PARTY, LOCAL:
"requests" is classified SYSTEM (prefix "re") and sorts first. -/
theorem c8_not_sys_requests_utils :
    ¬ ((Sorter.sort_imports
          (Parser.parse_imports
            [Parser.AstImportNode.importNode ["sys"],
             Parser.AstImportNode.importNode ["requests"],
             Parser.AstImportNode.importFromNode (some ".utils") ["helper"]])
          SortingType.STRUCTURAL).map (fun x => x.module) =
        ["sys", "requests", ".utils"] ∧
      Parser.classify_import_type "requests" = ImportType.THIRD_PARTY) := by
  decide

/-- C8 (amended): on the records built from `import sys`, `import requests`,
`from .utils import helper`, the classifier tags them SYSTEM, SYSTEM, LOCAL
("requests" string-prefix-matches the allow-listed "re"), and the STRUCTURAL
policy therefore yields the order requests, sys, .utils. -/
theorem c8_structural_order :
    (Parser.parse_imports
        [Parser.AstImportNode.importNode ["sys"],
         Parser.AstImportNode.importNode ["requests"],
         Parser.AstImportNode.importFromNode (some ".utils") ["helper"]]).map
        (fun x => x.import_type) =
      [ImportType.SYSTEM, ImportType.SYSTEM, ImportType.LOCAL] ∧
    (Sorter.sort_imports
        (Parser.parse_imports
          [Parser.AstImportNode.importNode ["sys"],
           Parser.AstImportNode.importNode ["requests"],
           Parser.AstImportNode.importFromNode (some ".utils") ["helper"]])
        SortingType.STRUCTURAL).map (fun x => x.module) =
      ["requests", "sys", ".utils"] := by
  decide


/-- C6: extraction emits one record per named module of a plain-import node
(each with `is_from_import = false` and text synthesized as
"import <module>") and one record per imported name of a selective-import
node (each with `is_from_import = true`, `specific_imports` holding exactly
that one name, and text synthesized as "from <module> import <name>"), the
node sequence being processed node by node. -/
theorem parse_imports_spec :
    (∀ (n : Parser.AstImportNode) (ns : List Parser.AstImportNode),
        Parser.parse_imports (n :: ns) =
          Parser.parse_imports [n] ++ Parser.parse_imports ns) ∧
    (∀ mods : List String,
        Parser.parse_imports [Parser.AstImportNode.importNode mods] =
          mods.map fun m =>
            { original_line := "import " ++ m
              import_type := Parser.classify_import_type m
              module := m
              specific_imports := []
              is_from_import := false }) ∧
    (∀ (mod : String) (names : List String),
        Parser.parse_imports
            [Parser.AstImportNode.importFromNode (some mod) names] =
          names.map fun nm =>
            { original_line := "from " ++ mod ++ " import " ++ nm
              import_type := Parser.classify_import_type mod
              module := mod
              specific_imports := [nm]
              is_from_import := true }) := by
  refine ⟨?_, ?_, ?_⟩
  · intro n ns
    simp [Parser.parse_imports]
  · intro mods
    simp only [Parser.parse_imports, List.flatMap_cons, List.flatMap_nil,
      List.append_nil]
    rfl
  · intro mod names
    simp only [Parser.parse_imports, List.flatMap_cons, List.flatMap_nil,
      List.append_nil]
    rfl

/-- C9: a bare relative import (an `ImportFrom` node with no module, as in
`from . import x`) gets the empty string substituted for the module path, so
the synthesized record text is "from  import x" (empty module between two
spaces), which differs from the original source syntax
`from . import x`. -/
theorem bare_relative_import_text :
    Parser.parse_imports [Parser.AstImportNode.importFromNode none ["x"]] =
      [{ original_line := "from  import x"
         import_type := ImportType.LOCAL
         module := ""
         specific_imports := ["x"]
         is_from_import := true }] ∧
    "from  import x" ≠ "from . import x" := by
  decide

/-- C7 counterexample: for a single-file invocation whose processing fails
(the source does not parse), the error is logged by `_process_single_file`
but the process exits with status 0, not a non-zero status. -/
theorem c7_failed_parse_exits_zero :
    (ImportSorter.process_single_file (Except.ok ["x = 1\n"])
        (Except.error "invalid syntax") SortingType.STRUCTURAL
        false).logged_errors = ["Error processing: invalid syntax"] ∧
    ImportSorter.run_exit_code (Except.ok ())
        (ImportSorter.process_single_file (Except.ok ["x = 1\n"])
          (Except.error "invalid syntax") SortingType.STRUCTURAL false) = 0 := by
  constructor
  · rfl
  · rfl

/-- C7 (amended): when processing of the single target file fails, the error
is logged inside `_process_single_file` and swallowed there — no exception
propagates — and the process terminates with exit status 0; the non-zero
exit of `run` is reserved for failures outside per-file processing, such as
configuration validation errors. -/
theorem failed_single_file_logs_and_exits_zero
    (read_result : Except String (List String))
    (parse_result : Except String (List ImportStatement))
    (sorting_type : SortingType) (dry_run : Bool) (e : String)
    (h : ImportSorter.process_single_file_body read_result parse_result
        sorting_type = Except.error e) :
    (ImportSorter.process_single_file read_result parse_result sorting_type
        dry_run).logged_errors = ["Error processing: " ++ e] ∧
    (ImportSorter.process_single_file read_result parse_result sorting_type
        dry_run).raised = none ∧
    ImportSorter.run_exit_code (Except.ok ())
        (ImportSorter.process_single_file read_result parse_result
          sorting_type dry_run) = 0 := by
  have h1 : ImportSorter.process_single_file read_result parse_result
      sorting_type dry_run =
      { logged_errors := ["Error processing: " ++ e]
        raised := none
        written := none } := by
    unfold ImportSorter.process_single_file
    rw [h]
  rw [h1]
  exact ⟨rfl, rfl, rfl⟩

/-- Witness for the amended C7 theorem at a concrete failing input. -/
theorem failed_single_file_logs_and_exits_zero_witness :
    (ImportSorter.process_single_file (Except.ok ["x = 1\n"])
        (Except.error "bad source") SortingType.ALPHABETICAL
        true).logged_errors = ["Error processing: " ++ "bad source"] ∧
    (ImportSorter.process_single_file (Except.ok ["x = 1\n"])
        (Except.error "bad source") SortingType.ALPHABETICAL
        true).raised = none ∧
    ImportSorter.run_exit_code (Except.ok ())
        (ImportSorter.process_single_file (Except.ok ["x = 1\n"])
          (Except.error "bad source") SortingType.ALPHABETICAL true) = 0 :=
  failed_single_file_logs_and_exits_zero (Except.ok ["x = 1\n"])
    (Except.error "bad source") SortingType.ALPHABETICAL true "bad source"
    (by rfl)

/-- C10: on a successful run the rewritten file content is exactly the
canonical rendering of the sorted parsed records (one line each) followed by
exactly those original lines whose stripped text does not start with
"import " or "from ", in original order; consequently a line that passes the
prefix test but produces no parsed record (here, a matching line inside a
string literal) is removed, and the total line count is not preserved. -/
theorem process_single_file_rewritten_content :
    (∀ (content : List String) (parsed : List ImportStatement)
        (sorting_type : SortingType),
      ImportSorter.process_single_file (Except.ok content) (Except.ok parsed)
          sorting_type false =
        { logged_errors := []
          raised := none
          written := some
            (((Sorter.sort_imports parsed sorting_type).map
                fun imp => imp.original_line ++ "\n") ++
              content.filter fun line =>
                !(ImportSorter.looks_like_import line)) }) ∧
    (ImportSorter.process_single_file
        (Except.ok ["s = \"\"\"\n", "import zzz\n", "\"\"\"\n"])
        (Except.ok []) SortingType.STRUCTURAL false).written =
      some ["s = \"\"\"\n", "\"\"\"\n"] ∧
    ["s = \"\"\"\n", "import zzz\n", "\"\"\"\n"].length = 3 ∧
    ["s = \"\"\"\n", "\"\"\"\n"].length = 2 := by
  refine ⟨fun content parsed sorting_type => rfl, by decide, rfl, rfl⟩
